import Mathlib

/-!
Shallow embedding of the model-download progress tracker, download-line
parser, status reconciler and download supervisor of `src/new-app/app.py`,
together with theorems settling the frozen claims about them.

Python `time.time()` values are modelled as rationals (`Rat`): timestamp
arithmetic in the source is ordinary subtraction and comparison, and the
float scaling `int(percent * 0.85)` agrees with the rational
`(17 * percent) / 20` floor for every percent value that can be parsed
from a progress line (the product is far from integer boundaries except
at multiples of 20, where the nearest-double rounding of `0.85` lands
strictly above the integer, so truncation agrees with the rational floor).
-/

namespace LLMApp

/-! ### Character-level helpers mirroring Python string operations -/

/-- Python `str.strip` whitespace class (`\s`): space, tab, newline,
carriage return, vertical tab, form feed. -/
def isPySpace (c : Char) : Bool :=
  c = ' ' || c = '\t' || c = '\n' || c = '\r' || c.toNat = 11 || c.toNat = 12

/-- Python `line.strip()`. -/
def stripPy (cs : List Char) : List Char :=
  ((cs.dropWhile isPySpace).reverse.dropWhile isPySpace).reverse

/-- Boolean list-prefix test. -/
def prefixOf : List Char → List Char → Bool
  | [], _ => true
  | _ :: _, [] => false
  | a :: as, b :: bs => a = b && prefixOf as bs

/-- Python substring containment `pat in hay`. -/
def hasSub (hay pat : List Char) : Bool :=
  match hay with
  | [] => pat.isEmpty
  | _ :: rest => prefixOf pat hay || hasSub rest pat

/-! ### The `download_progress` record (module-level dict in `app.py`) -/

structure Tracker where
  downloading : Bool
  model : Option String
  progress : Nat
  status : String
  total : String
  completed : String
  speed : String
  eta : String
  completion_time : Rat
  file_name : Option String
  completed_layers : List String
  layer_progress : List (String × Nat)
  current_layer : Option String
  download_attempt : Nat
  last_download_attempt_time : Rat
  api_call_count : Nat
deriving DecidableEq

/-- The initial `download_progress` dict. The source initializes
`total`/`completed` to the integer `0` and later overwrites them with
size strings; the model keeps them as strings throughout. -/
def initialProgress : Tracker :=
  { downloading := false
    model := none
    progress := 0
    status := "idle"
    total := "0"
    completed := "0"
    speed := ""
    eta := ""
    completion_time := 0
    file_name := none
    completed_layers := []
    layer_progress := []
    current_layer := none
    download_attempt := 0
    last_download_attempt_time := 0
    api_call_count := 0 }

/-! ### Status reconciliation (`health_check`, lines 1228-1251) -/

/-- The overall-status decision of `health_check` (lines 1239-1251),
as a pure function of daemon reachability, model availability, the
tracker state and the current time. -/
def computeStatus (ollamaRunning modelAvailable : Bool) (tr : Tracker) (now : Rat) : String :=
  if !ollamaRunning then "error"
  else if tr.downloading then "downloading"
  else if modelAvailable then "ok"
  else if 0 < tr.completion_time ∧ now - tr.completion_time < 30 then "ok"
  else "loading"

/-- Decision rules as the claim states them (spec 4.3), for comparison
with the translation of the source. -/
def computeStatusSpec (ollamaRunning modelAvailable : Bool) (tr : Tracker) (now : Rat) : String :=
  if ollamaRunning = false then "error"
  else if tr.downloading = true then "downloading"
  else if modelAvailable = true then "ok"
  else if 0 < tr.completion_time ∧ now - tr.completion_time < 30 then "ok"
  else "loading"

/-- The self-healing correction of `health_check` (lines 1229-1236). -/
def healTracker (tr : Tracker) (now : Rat) : Tracker :=
  { tr with downloading := false, status := "Model ready", progress := 100,
            completion_time := now }

/-- The reconciliation step of `health_check` (lines 1228-1251): apply the
self-healing correction when the daemon reports the model available while
the tracker still says downloading, then compute the overall status. -/
def reconcile (ollamaRunning modelAvailable : Bool) (tr : Tracker) (now : Rat) :
    String × Tracker :=
  let tr' := if modelAvailable && tr.downloading then healTracker tr now else tr
  (computeStatus ollamaRunning modelAvailable tr' now, tr')

/-! ### The download-line parser (`parse_download_line`, lines 1077-1174) -/

/-- Lowercase-hex character class `[a-f0-9]` of the layer-id pattern. -/
def isHexLower (c : Char) : Bool :=
  ('a' ≤ c && c ≤ 'f') || ('0' ≤ c && c ≤ '9')

/-- Try the pattern `pulling\s+([a-f0-9]+)\.\.\.` anchored at the head of
the list; on success return the captured hex run.  The greedy runs of the
pattern never benefit from backtracking (whitespace, hex and the literal
dots are pairwise disjoint character classes), so maximal-munch is exact. -/
def matchLayerAt (cs : List Char) : Option (List Char) :=
  if prefixOf ("pulling".data) cs then
    let r1 := cs.drop 7
    if (r1.takeWhile isPySpace).isEmpty then none
    else
      let r2 := r1.dropWhile isPySpace
      let hex := r2.takeWhile isHexLower
      if hex.isEmpty then none
      else if prefixOf ("...".data) (r2.dropWhile isHexLower) then some hex
      else none
  else none

/-- Model of `re.search` of the layer-id pattern: leftmost anchored match. -/
def searchLayer (cs : List Char) : Option (List Char) :=
  match cs with
  | [] => none
  | _ :: rest =>
    match matchLayerAt cs with
    | some h => some h
    | none => searchLayer rest

/-- Try the pattern `(\d+)%` anchored at the head of the list. -/
def matchPercentAt (cs : List Char) : Option (List Char) :=
  let ds := cs.takeWhile Char.isDigit
  if ds.isEmpty then none
  else if prefixOf ("%".data) (cs.dropWhile Char.isDigit) then some ds
  else none

/-- Model of `re.search` of `(\d+)%`: leftmost digit run immediately followed by
a percent sign. -/
def searchPercent (cs : List Char) : Option (List Char) :=
  match cs with
  | [] => none
  | _ :: rest =>
    match matchPercentAt cs with
    | some ds => some ds
    | none => searchPercent rest

/-- Decimal value of a digit run, as Python `int` computes it. -/
def digitsToNat (ds : List Char) : Nat :=
  ds.foldl (fun n c => 10 * n + (c.toNat - 48)) 0

/-- Try the number pattern `\d+\.?\d*` anchored at the head; returns the
captured text and the remainder.  Declining the optional dot can never
rescue a failed match (the following character classes exclude a dot),
so the greedy reading is exact. -/
def matchNumAt (cs : List Char) : Option (List Char × List Char) :=
  let ds := cs.takeWhile Char.isDigit
  if ds.isEmpty then none
  else
    match cs.dropWhile Char.isDigit with
    | c :: r2 =>
      if c = '.' then
        some (ds ++ '.' :: r2.takeWhile Char.isDigit, r2.dropWhile Char.isDigit)
      else some (ds, c :: r2)
    | [] => some (ds, [])

def isKMGT (c : Char) : Bool :=
  c = 'K' || c = 'M' || c = 'G' || c = 'T'

/-- Try the unit pattern `[KMGT]?B` anchored at the head. -/
def matchSizeUnitAt (cs : List Char) : Option (List Char × List Char) :=
  match cs with
  | c1 :: c2 :: r =>
    if isKMGT c1 && c2 = 'B' then some (c1 :: 'B' :: [], r)
    else if c1 = 'B' then some ('B' :: [], c2 :: r)
    else none
  | c1 :: [] => if c1 = 'B' then some ('B' :: [], []) else none
  | [] => none

/-- Try the size pattern
`(\d+\.?\d*)\s*([KMGT]?B)/(\d+\.?\d*)\s*([KMGT]?B)` anchored at the head;
on success return the four captures. -/
def matchSizeAt (cs : List Char) :
    Option (List Char × List Char × List Char × List Char) :=
  match matchNumAt cs with
  | none => none
  | some (n1, r1) =>
    match matchSizeUnitAt (r1.dropWhile isPySpace) with
    | none => none
    | some (u1, r2) =>
      match r2 with
      | c :: r3 =>
        if c = '/' then
          match matchNumAt r3 with
          | none => none
          | some (n2, r4) =>
            match matchSizeUnitAt (r4.dropWhile isPySpace) with
            | none => none
            | some (u2, _) => some (n1, u1, n2, u2)
        else none
      | [] => none

/-- Model of `re.search` of the size pattern: leftmost match. -/
def searchSize (cs : List Char) :
    Option (List Char × List Char × List Char × List Char) :=
  match cs with
  | [] => none
  | _ :: rest =>
    match matchSizeAt cs with
    | some g => some g
    | none => searchSize rest

/-- Try the unit pattern `[KMGT]?B/s` anchored at the head. -/
def matchSpeedUnitAt (cs : List Char) : Option (List Char) :=
  match cs with
  | c1 :: c2 :: c3 :: c4 :: _ =>
    if isKMGT c1 && c2 = 'B' && c3 = '/' && c4 = 's' then
      some (c1 :: 'B' :: '/' :: 's' :: [])
    else if c1 = 'B' && c2 = '/' && c3 = 's' then some ('B' :: '/' :: 's' :: [])
    else none
  | c1 :: c2 :: c3 :: [] =>
    if c1 = 'B' && c2 = '/' && c3 = 's' then some ('B' :: '/' :: 's' :: [])
    else none
  | _ => none

/-- Try the speed pattern `(\d+\.?\d*)\s*([KMGT]?B/s)` anchored at the
head; on success return the two captures. -/
def matchSpeedAt (cs : List Char) : Option (List Char × List Char) :=
  match matchNumAt cs with
  | none => none
  | some (n, r1) =>
    match matchSpeedUnitAt (r1.dropWhile isPySpace) with
    | none => none
    | some u => some (n, u)

/-- Model of `re.search` of the speed pattern: leftmost match. -/
def searchSpeed (cs : List Char) : Option (List Char × List Char) :=
  match cs with
  | [] => none
  | _ :: rest =>
    match matchSpeedAt cs with
    | some g => some g
    | none => searchSpeed rest

/-- Python `set.add` on the `completed_layers` set, rendered on an
insertion-ordered list. -/
def insertSet (s : List String) (x : String) : List String :=
  if s.contains x then s else s ++ [x]

/-- Update of the `layer_progress` dict at one key. -/
def assocSet (m : List (String × Nat)) (k : String) (v : Nat) :
    List (String × Nat) :=
  match m with
  | [] => (k, v) :: []
  | (k', v') :: rest => if k' = k then (k, v) :: rest else (k', v') :: assocSet rest k v

/-- The layer identifier extracted by lines 1085-1089: present only when
the line contains both "pulling" and "..." and the layer regex matches. -/
def layerIdOf (cs : List Char) : Option (List Char) :=
  if hasSub cs ("pulling".data) && hasSub cs ("...".data) then searchLayer cs
  else none

/-- The layer-tracking block of `parse_download_line` (lines 1084-1100):
record the layer id as `file_name`, and as `current_layer` when it is not
already completed.  (The set/list coercion of `completed_layers` in the
source is the identity in this model.) -/
def applyLayerBlock (tr : Tracker) (cs : List Char) : Tracker :=
  match layerIdOf cs with
  | some hex =>
    let lid := String.mk hex
    { tr with file_name := some lid,
              current_layer := if tr.completed_layers.contains lid then tr.current_layer
                               else some lid }
  | none => tr

/-- The milestone table of lines 1102-1108, searched in insertion order;
the Bool marks the "success" entry, which additionally ends the download. -/
def milestoneOf (cs : List Char) : Option (String × Nat × Bool) :=
  if hasSub cs ("pulling manifest".data) then some ("Initializing download...", 2, false)
  else if hasSub cs ("verifying sha256 digest".data) then
    some ("Verifying download...", 95, false)
  else if hasSub cs ("writing manifest".data) then some ("Installing model...", 98, false)
  else if hasSub cs ("success".data) then some ("Download complete!", 100, true)
  else none

/-- Percent extraction and monotone progress update (lines 1128-1150):
rescale the raw percent into the 5-90 band, record per-layer progress,
mark the layer completed at a raw percent of 99 or more, and raise the
overall progress only when the rescaled value strictly exceeds it. -/
def percentLayerStep (tr : Tracker) (lid? : Option (List Char)) (p scaled : Nat) :
    Tracker :=
  match lid? with
  | some hex =>
    let lid := String.mk hex
    let trl := { tr with layer_progress := assocSet tr.layer_progress lid scaled }
    if 99 ≤ p then { trl with completed_layers := insertSet trl.completed_layers lid }
    else trl
  | none => tr

def percentStep (tr : Tracker) (lid? : Option (List Char)) (cs : List Char) : Tracker :=
  match searchPercent cs with
  | some ds =>
    let p := digitsToNat ds
    let scaled := 5 + 17 * p / 20
    let tr' := percentLayerStep tr lid? p scaled
    if tr'.progress < scaled then { tr' with progress := scaled } else tr'
  | none => tr

/-- Size extraction (lines 1152-1159). -/
def sizeStep (tr : Tracker) (cs : List Char) : Tracker :=
  match searchSize cs with
  | some (c, cu, t, tu) =>
    { tr with completed := String.mk c ++ " " ++ String.mk cu,
              total := String.mk t ++ " " ++ String.mk tu }
  | none => tr

/-- Speed extraction (lines 1161-1165). -/
def speedStep (tr : Tracker) (cs : List Char) : Tracker :=
  match searchSpeed cs with
  | some (s, su) => { tr with speed := String.mk s ++ " " ++ String.mk su }
  | none => tr

/-- Status-line synthesis (lines 1167-1171). -/
def statusSynth (tr : Tracker) (lid? : Option (List Char)) : Tracker :=
  match lid? with
  | some hex =>
    { tr with status := "Downloading file: " ++ String.mk (hex.take 8) ++ "... (" ++
                toString tr.progress ++ "%)" }
  | none => { tr with status := "Downloading model... (" ++ toString tr.progress ++ "%)" }

/-- The per-layer percent / size / speed / status-synthesis branch of
`parse_download_line` (lines 1126-1174), entered when the line contains
both "pulling" and "%". -/
def applyPercentBranch (tr : Tracker) (lid? : Option (List Char)) (cs : List Char) :
    Tracker :=
  statusSynth (speedStep (sizeStep (percentStep tr lid? cs) cs) cs) lid?

/-- The function `parse_download_line` (lines 1077-1174) as a state transformer on the
`download_progress` record.  `now` is the value `time.time()` would
return when the "success" milestone stamps `completion_time`. -/
def parse_download_line (now : Rat) (tr : Tracker) (line : String) : Tracker :=
  let cs := stripPy line.data
  let tr1 := applyLayerBlock tr cs
  match milestoneOf cs with
  | some (st, p, isSucc) =>
    let tr2 := { tr1 with status := st, progress := p }
    if isSucc then { tr2 with downloading := false, completion_time := now } else tr2
  | none =>
    if hasSub cs ("pulling".data) && hasSub cs ("%".data) then
      applyPercentBranch tr1 (layerIdOf cs) cs
    else tr1

/-- The layer-completion condition as the claim states it: not a
milestone line, percent-bearing, carrying a layer id, with a raw percent
of at least 99. -/
def layerCompletionOf (cs : List Char) : Option (List Char) :=
  match milestoneOf cs with
  | some _ => none
  | none =>
    if hasSub cs ("pulling".data) && hasSub cs ("%".data) then
      match layerIdOf cs, searchPercent cs with
      | some hex, some ds => if 99 ≤ digitsToNat ds then some hex else none
      | _, _ => none
    else none

/-! ### The health-response cache (`model_status_cache`) and `health_check` -/

structure StatusCache where
  timestamp : Rat
  response : Option String
  cache_ttl : Rat
deriving DecidableEq

/-- The initial `model_status_cache` dict (lines 233-237). -/
def initialCache : StatusCache :=
  { timestamp := 0, response := none, cache_ttl := 3 }

/-- The cache-miss path of `health_check` (lines 1191-1272): bump the
API-call counter, reconcile, and store the freshly computed status in the
cache.  The cached payload is modelled by its `actual_status` field. -/
def health_check_fresh (cache : StatusCache) (tr : Tracker)
    (ollamaRunning modelAvailable : Bool) (now : Rat) :
    String × Tracker × StatusCache :=
  let tr1 := { tr with api_call_count := tr.api_call_count + 1 }
  let st := (reconcile ollamaRunning modelAvailable tr1 now).1
  ((reconcile ollamaRunning modelAvailable tr1 now).1,
   (reconcile ollamaRunning modelAvailable tr1 now).2,
   { cache with response := some st, timestamp := now })

/-- The endpoint `health_check` (lines 1176-1272): serve the cached payload when one
exists and is younger than the TTL, otherwise recompute and re-cache. -/
def health_check (cache : StatusCache) (tr : Tracker)
    (ollamaRunning modelAvailable : Bool) (now : Rat) :
    String × Tracker × StatusCache :=
  match cache.response with
  | some p =>
    if now - cache.timestamp < cache.cache_ttl then (p, tr, cache)
    else health_check_fresh cache tr ollamaRunning modelAvailable now
  | none => health_check_fresh cache tr ollamaRunning modelAvailable now

/-! ### The download endpoint (`download_model`, lines 1506-1711) -/

/-- The synchronous decision of the `/api/download-model` endpoint. -/
inductive StartDecision where
  | disabled
  | inProgress (model : Option String) (progressPct : Nat)
  | rateLimited (retryAfter : Int)
  | ready
  | ollamaDown
  | started
deriving DecidableEq

/-- The tracker reset performed when a download starts (lines 1582-1595). -/
def startDownloadReset (tr : Tracker) (modelId : String) : Tracker :=
  { tr with downloading := true, model := some modelId, progress := 0,
            status := "Starting download...", total := "0", completed := "0",
            speed := "", eta := "", completed_layers := [], layer_progress := [],
            current_layer := none }

/-- The synchronous part of `download_model` (lines 1506-1595): disabled
check, already-downloading check, 5-second rate limit with
`retry_after = int(5 - elapsed) + 1` (`int` truncates; the operand is
positive, so truncation is the floor), attempt-timestamp update,
already-available short-circuit, daemon check, tracker reset. -/
def download_model (autoDownloadDisabled : Bool) (tr : Tracker) (modelId : String)
    (modelAvailable ollamaRunning : Bool) (now : Rat) : StartDecision × Tracker :=
  if autoDownloadDisabled then (.disabled, tr)
  else if tr.downloading then (.inProgress tr.model tr.progress, tr)
  else if now - tr.last_download_attempt_time < 5 then
    (.rateLimited (Rat.floor (5 - (now - tr.last_download_attempt_time)) + 1), tr)
  else
    let tr1 := { tr with last_download_attempt_time := now }
    if modelAvailable then
      (.ready, { tr1 with downloading := false, status := "Available", progress := 100,
                          completion_time := now,
                          download_attempt := tr1.download_attempt + 1 })
    else if !ollamaRunning then (.ollamaDown, tr1)
    else (.started, startDownloadReset tr1 modelId)

/-! ### The background download task (`download_with_progress`) -/

/-- How the wait on the pull subprocess ends: a process exit code, the
5-minute `subprocess.TimeoutExpired` (after which the process is killed),
or an exception raised inside the task body. -/
inductive PullOutcome where
  | exited (code : Int)
  | timedOut
  | raised (msg : String)
deriving DecidableEq

/-- The terminal state transition of `download_with_progress`
(lines 1634-1695).  On exit code 0 the source applies two successive
updates (lines 1638-1645 and 1656-1661, with an advisory availability
probe in between that mutates nothing); the set-to-list conversion of
`completed_layers` is the identity in this model. -/
def finalizeDownload (tr : Tracker) (outcome : PullOutcome) (now : Rat) : Tracker :=
  match outcome with
  | .exited code =>
    if code = 0 then
      let tr1 := { tr with downloading := false, status := "Download complete!",
                           progress := 100, completion_time := now,
                           download_attempt := tr.download_attempt + 1 }
      { tr1 with downloading := false, status := "Model ready", progress := 100 }
    else
      { tr with downloading := false,
                status := "Download failed with exit code " ++ toString code,
                progress := 0 }
  | .timedOut =>
    { tr with downloading := false,
              status := "Download timeout after 5 minutes of no activity",
              progress := 0 }
  | .raised msg =>
    { tr with downloading := false, status := "Error: " ++ msg, progress := 0 }

/-! ### Model availability (`is_model_available`, lines 263-273) -/

/-- Python `model_id.split(':')[0] if ':' in model_id else model_id`. -/
def modelBase (m : String) : String :=
  if hasSub m.data (":".data) then String.mk (m.data.takeWhile (fun c => !(c = ':')))
  else m

/-- The check `is_model_available`: exact match against the daemon's model list, or
any listed model whose name starts with the requested base name followed
by a colon. -/
def is_model_available (available_models : List String) (model_id : String) : Bool :=
  available_models.contains model_id ||
    available_models.any (fun m => prefixOf ((modelBase model_id).data ++ (":".data)) m.data)

/-- C1: `computeStatus` returns exactly one of "error", "downloading",
"ok", "loading" by the first matching rule in order (daemon unreachable →
"error" regardless of tracker state; else downloading → "downloading";
else model available → "ok"; else completion_time > 0 and less than 30
seconds old → "ok"; otherwise "loading"); in particular it returns "ok"
10 seconds after completion even with the model unavailable, and
"loading" once 31 seconds have elapsed. -/
theorem claim_C1_computeStatus_rules :
    (∀ (d m : Bool) (tr : Tracker) (now : Rat),
        computeStatus d m tr now = computeStatusSpec d m tr now)
    ∧ (∀ (d m : Bool) (tr : Tracker) (now : Rat),
        computeStatus d m tr now = "error" ∨ computeStatus d m tr now = "downloading" ∨
          computeStatus d m tr now = "ok" ∨ computeStatus d m tr now = "loading")
    ∧ (∀ (m : Bool) (tr : Tracker) (now : Rat), computeStatus false m tr now = "error")
    ∧ computeStatus true false { initialProgress with completion_time := 90 } 100 = "ok"
    ∧ computeStatus true false { initialProgress with completion_time := 69 } 100 = "loading" := by
  refine ⟨?_, ?_, ?_, by norm_num [computeStatus, initialProgress],
    by norm_num [computeStatus, initialProgress]⟩
  · intro d m tr now
    cases d <;> cases m <;> simp [computeStatus, computeStatusSpec]
  · intro d m tr now
    unfold computeStatus
    split
    · exact Or.inl rfl
    · split
      · exact Or.inr (Or.inl rfl)
      · split
        · exact Or.inr (Or.inr (Or.inl rfl))
        · split
          · exact Or.inr (Or.inr (Or.inl rfl))
          · exact Or.inr (Or.inr (Or.inr rfl))
  · intro m tr now
    simp [computeStatus]

/-- C2: when `computeStatus` runs with the model available while the
tracker still shows downloading, it first corrects the tracker (sets
downloading to false, status to "Model ready", progress to 100 and
completion_time to now) before computing the status, and the correction
converges after one call: a second call with unchanged inputs returns
"ok" without any further tracker mutation. -/
theorem claim_C2_self_healing (tr : Tracker) (now now2 : Rat)
    (h : tr.downloading = true) :
    (reconcile true true tr now).2.downloading = false ∧
    (reconcile true true tr now).2.status = "Model ready" ∧
    (reconcile true true tr now).2.progress = 100 ∧
    (reconcile true true tr now).2.completion_time = now ∧
    reconcile true true (reconcile true true tr now).2 now2 =
      ("ok", (reconcile true true tr now).2) := by
  simp [reconcile, healTracker, h, computeStatus]

/-- Witness for C2 at a concrete tracker and concrete times. -/
theorem claim_C2_self_healing_witness :
    (reconcile true true { initialProgress with downloading := true } 5).2.status =
      "Model ready" ∧
    reconcile true true (reconcile true true { initialProgress with downloading := true } 5).2 9 =
      ("ok", (reconcile true true { initialProgress with downloading := true } 5).2) := by
  have h := claim_C2_self_healing { initialProgress with downloading := true } 5 9 rfl
  exact ⟨h.2.1, h.2.2.2.2⟩

/-! ### Field-preservation lemmas for the parser stages -/

theorem applyLayerBlock_fields (tr : Tracker) (cs : List Char) :
    (applyLayerBlock tr cs).progress = tr.progress ∧
    (applyLayerBlock tr cs).completed_layers = tr.completed_layers ∧
    (applyLayerBlock tr cs).downloading = tr.downloading ∧
    (applyLayerBlock tr cs).completion_time = tr.completion_time ∧
    (applyLayerBlock tr cs).completed = tr.completed ∧
    (applyLayerBlock tr cs).total = tr.total ∧
    (applyLayerBlock tr cs).speed = tr.speed := by
  unfold applyLayerBlock
  cases layerIdOf cs <;> simp

theorem percentLayerStep_progress (tr : Tracker) (lid? : Option (List Char))
    (p scaled : Nat) : (percentLayerStep tr lid? p scaled).progress = tr.progress := by
  unfold percentLayerStep
  cases lid? with
  | none => rfl
  | some hex => by_cases h : 99 ≤ p <;> simp [h]

theorem percentLayerStep_layers (tr : Tracker) (lid? : Option (List Char))
    (p scaled : Nat) :
    (percentLayerStep tr lid? p scaled).completed_layers =
      match lid? with
      | some hex =>
        if 99 ≤ p then insertSet tr.completed_layers (String.mk hex)
        else tr.completed_layers
      | none => tr.completed_layers := by
  unfold percentLayerStep
  cases lid? with
  | none => rfl
  | some hex => by_cases h : 99 ≤ p <;> simp [h]

theorem percentStep_progress_le (tr : Tracker) (lid? : Option (List Char))
    (cs : List Char) : tr.progress ≤ (percentStep tr lid? cs).progress := by
  unfold percentStep
  cases searchPercent cs with
  | none => exact le_refl _
  | some ds =>
    simp only
    split
    · next hlt =>
      simp only
      rw [percentLayerStep_progress] at hlt
      omega
    · next hlt => rw [percentLayerStep_progress]

theorem percentStep_layers (tr : Tracker) (lid? : Option (List Char)) (cs : List Char) :
    (percentStep tr lid? cs).completed_layers =
      match lid?, searchPercent cs with
      | some hex, some ds =>
        if 99 ≤ digitsToNat ds then insertSet tr.completed_layers (String.mk hex)
        else tr.completed_layers
      | _, _ => tr.completed_layers := by
  unfold percentStep
  cases hp : searchPercent cs with
  | none => cases lid? <;> simp
  | some ds =>
    simp only
    split <;> rw [percentLayerStep_layers] <;> cases lid? <;> simp

theorem sizeStep_fields (tr : Tracker) (cs : List Char) :
    (sizeStep tr cs).progress = tr.progress ∧
    (sizeStep tr cs).completed_layers = tr.completed_layers := by
  unfold sizeStep
  cases searchSize cs with
  | none => exact ⟨rfl, rfl⟩
  | some g =>
    obtain ⟨c, cu, t, tu⟩ := g
    exact ⟨rfl, rfl⟩

theorem speedStep_fields (tr : Tracker) (cs : List Char) :
    (speedStep tr cs).progress = tr.progress ∧
    (speedStep tr cs).completed_layers = tr.completed_layers := by
  unfold speedStep
  cases searchSpeed cs with
  | none => exact ⟨rfl, rfl⟩
  | some g =>
    obtain ⟨s, su⟩ := g
    exact ⟨rfl, rfl⟩

theorem statusSynth_fields (tr : Tracker) (lid? : Option (List Char)) :
    (statusSynth tr lid?).progress = tr.progress ∧
    (statusSynth tr lid?).completed_layers = tr.completed_layers := by
  unfold statusSynth
  cases lid? <;> exact ⟨rfl, rfl⟩

theorem applyPercentBranch_progress_le (tr : Tracker) (lid? : Option (List Char))
    (cs : List Char) : tr.progress ≤ (applyPercentBranch tr lid? cs).progress := by
  unfold applyPercentBranch
  rw [(statusSynth_fields _ _).1, (speedStep_fields _ _).1, (sizeStep_fields _ _).1]
  exact percentStep_progress_le tr lid? cs

theorem applyPercentBranch_layers (tr : Tracker) (lid? : Option (List Char))
    (cs : List Char) :
    (applyPercentBranch tr lid? cs).completed_layers =
      (percentStep tr lid? cs).completed_layers := by
  unfold applyPercentBranch
  rw [(statusSynth_fields _ _).2, (speedStep_fields _ _).2, (sizeStep_fields _ _).2]

theorem insertSet_idem (s : List String) (x : String) :
    insertSet (insertSet s x) x = insertSet s x := by
  unfold insertSet
  by_cases h : x ∈ s <;> simp [h]

theorem milestoneOf_eq_none (cs : List Char)
    (h1 : hasSub cs ("pulling manifest".data) = false)
    (h2 : hasSub cs ("verifying sha256 digest".data) = false)
    (h3 : hasSub cs ("writing manifest".data) = false)
    (h4 : hasSub cs ("success".data) = false) : milestoneOf cs = none := by
  unfold milestoneOf
  simp [h1, h2, h3, h4]

theorem layerCompletionOf_of_success (cs : List Char)
    (h : hasSub cs ("success".data) = true) : layerCompletionOf cs = none := by
  unfold layerCompletionOf milestoneOf
  by_cases h1 : hasSub cs ("pulling manifest".data) = true <;>
    by_cases h2 : hasSub cs ("verifying sha256 digest".data) = true <;>
      by_cases h3 : hasSub cs ("writing manifest".data) = true <;>
        simp [h1, h2, h3, h]

/-- C3: the claim that overall progress never decreases for any sequence
of lines while downloading is true fails on the code: milestone lines
force-set `progress` unconditionally (lines 1110-1115), so a
"pulling manifest" line arriving after progress has advanced drags it
back down.  Concretely, a 100-percent layer line raises progress to 90,
and a following "pulling manifest" line lowers it to 2 while
`downloading` is still true. -/
theorem claim_C3_counterexample :
    (parse_download_line 0 { initialProgress with downloading := true }
        "pulling a1b2c3...  100%").progress = 90 ∧
    (parse_download_line 0 { initialProgress with downloading := true }
        "pulling a1b2c3...  100%").downloading = true ∧
    (parse_download_line 0
        (parse_download_line 0 { initialProgress with downloading := true }
          "pulling a1b2c3...  100%") "pulling manifest").progress = 2 ∧
    (parse_download_line 0
        (parse_download_line 0 { initialProgress with downloading := true }
          "pulling a1b2c3...  100%") "pulling manifest").downloading = true := by
  refine ⟨by decide, by decide, by decide, by decide⟩

/-- C3 (amended): the recorded overall progress is non-decreasing across
every line that contains no milestone phrase; only milestone lines (and
the explicit reset/error/completion updates outside the parser) can
force-set it, possibly downward. -/
theorem claim_C3_amended_monotonic (now : Rat) (tr : Tracker) (line : String)
    (h1 : hasSub (stripPy line.data) ("pulling manifest".data) = false)
    (h2 : hasSub (stripPy line.data) ("verifying sha256 digest".data) = false)
    (h3 : hasSub (stripPy line.data) ("writing manifest".data) = false)
    (h4 : hasSub (stripPy line.data) ("success".data) = false) :
    tr.progress ≤ (parse_download_line now tr line).progress := by
  have hm := milestoneOf_eq_none (stripPy line.data) h1 h2 h3 h4
  unfold parse_download_line
  simp only [hm]
  by_cases hg : (hasSub (stripPy line.data) ("pulling".data) &&
      hasSub (stripPy line.data) ("%".data)) = true
  · simp only [hg, if_true]
    calc tr.progress = (applyLayerBlock tr (stripPy line.data)).progress :=
          ((applyLayerBlock_fields tr (stripPy line.data)).1).symm
      _ ≤ _ := applyPercentBranch_progress_le _ _ _
  · simp only [hg, Bool.false_eq_true, if_false]
    exact le_of_eq ((applyLayerBlock_fields tr (stripPy line.data)).1).symm

/-- Witness for the amended C3 at a concrete percent line. -/
theorem claim_C3_amended_monotonic_witness :
    initialProgress.progress ≤
      (parse_download_line 0 initialProgress "pulling abc...  42%").progress :=
  claim_C3_amended_monotonic 0 initialProgress "pulling abc...  42%"
    (by decide) (by decide) (by decide) (by decide)

/-- C4: milestone lines set status and progress to the fixed pair from
the table ("pulling manifest" → ("Initializing download...", 2);
"verifying sha256 digest" → ("Verifying download...", 95);
"writing manifest" → ("Installing model...", 98); "success" →
("Download complete!", 100) plus ending the download and stamping
`completion_time`), with first match winning in table order and the
percent/size/speed rules skipped; a line containing both "success" and a
stray "45%" ends with progress 100, not 45. -/
theorem claim_C4_milestones (now : Rat) (tr : Tracker) (line : String) :
    (hasSub (stripPy line.data) ("pulling manifest".data) = true →
      (parse_download_line now tr line).status = "Initializing download..." ∧
      (parse_download_line now tr line).progress = 2 ∧
      (parse_download_line now tr line).downloading = tr.downloading ∧
      (parse_download_line now tr line).completion_time = tr.completion_time ∧
      (parse_download_line now tr line).completed = tr.completed ∧
      (parse_download_line now tr line).total = tr.total ∧
      (parse_download_line now tr line).speed = tr.speed)
    ∧ (hasSub (stripPy line.data) ("verifying sha256 digest".data) = true →
        hasSub (stripPy line.data) ("pulling manifest".data) = false →
        (parse_download_line now tr line).status = "Verifying download..." ∧
        (parse_download_line now tr line).progress = 95 ∧
        (parse_download_line now tr line).downloading = tr.downloading ∧
        (parse_download_line now tr line).completion_time = tr.completion_time ∧
        (parse_download_line now tr line).completed = tr.completed ∧
        (parse_download_line now tr line).total = tr.total ∧
        (parse_download_line now tr line).speed = tr.speed)
    ∧ (hasSub (stripPy line.data) ("writing manifest".data) = true →
        hasSub (stripPy line.data) ("pulling manifest".data) = false →
        hasSub (stripPy line.data) ("verifying sha256 digest".data) = false →
        (parse_download_line now tr line).status = "Installing model..." ∧
        (parse_download_line now tr line).progress = 98 ∧
        (parse_download_line now tr line).downloading = tr.downloading ∧
        (parse_download_line now tr line).completion_time = tr.completion_time ∧
        (parse_download_line now tr line).completed = tr.completed ∧
        (parse_download_line now tr line).total = tr.total ∧
        (parse_download_line now tr line).speed = tr.speed)
    ∧ (hasSub (stripPy line.data) ("success".data) = true →
        hasSub (stripPy line.data) ("pulling manifest".data) = false →
        hasSub (stripPy line.data) ("verifying sha256 digest".data) = false →
        hasSub (stripPy line.data) ("writing manifest".data) = false →
        (parse_download_line now tr line).status = "Download complete!" ∧
        (parse_download_line now tr line).progress = 100 ∧
        (parse_download_line now tr line).downloading = false ∧
        (parse_download_line now tr line).completion_time = now ∧
        (parse_download_line now tr line).completed = tr.completed ∧
        (parse_download_line now tr line).total = tr.total ∧
        (parse_download_line now tr line).speed = tr.speed)
    ∧ (parse_download_line 3 initialProgress "pulling success 45%").status =
        "Download complete!"
    ∧ (parse_download_line 3 initialProgress "pulling success 45%").progress = 100 := by
  obtain ⟨hP, hL, hD, hT, hC, hTo, hS⟩ :=
    applyLayerBlock_fields tr (stripPy line.data)
  refine ⟨?_, ?_, ?_, ?_, by decide, by decide⟩
  · intro h1
    have hm : milestoneOf (stripPy line.data) =
        some ("Initializing download...", 2, false) := by
      unfold milestoneOf; simp [h1]
    unfold parse_download_line
    simp [hm, hD, hT, hC, hTo, hS]
  · intro h2 h1
    have hm : milestoneOf (stripPy line.data) =
        some ("Verifying download...", 95, false) := by
      unfold milestoneOf; simp [h1, h2]
    unfold parse_download_line
    simp [hm, hD, hT, hC, hTo, hS]
  · intro h3 h1 h2
    have hm : milestoneOf (stripPy line.data) =
        some ("Installing model...", 98, false) := by
      unfold milestoneOf; simp [h1, h2, h3]
    unfold parse_download_line
    simp [hm, hD, hT, hC, hTo, hS]
  · intro h4 h1 h2 h3
    have hm : milestoneOf (stripPy line.data) =
        some ("Download complete!", 100, true) := by
      unfold milestoneOf; simp [h1, h2, h3, h4]
    unfold parse_download_line
    simp [hm, hC, hTo, hS]

/-- Witness for C4 at concrete milestone lines. -/
theorem claim_C4_milestones_witness :
    (parse_download_line 7 initialProgress "pulling manifest").status =
      "Initializing download..." ∧
    (parse_download_line 7 initialProgress "all layers success").completion_time = 7 := by
  refine ⟨((claim_C4_milestones 7 initialProgress "pulling manifest").1 (by decide)).1, ?_⟩
  exact (((claim_C4_milestones 7 initialProgress "all layers success").2.2.2.1
    (by decide) (by decide) (by decide) (by decide))).2.2.2.1

/-- C5: a layer identifier joins `completed_layers` exactly when a
percent-bearing non-milestone line carries that layer id together with a
raw percent of at least 99; insertion is idempotent (set semantics), and
a "success" milestone alone never adds a layer. -/
theorem claim_C5_layer_completion :
    (∀ (now : Rat) (tr : Tracker) (line : String),
      (parse_download_line now tr line).completed_layers =
        match layerCompletionOf (stripPy line.data) with
        | some hex => insertSet tr.completed_layers (String.mk hex)
        | none => tr.completed_layers)
    ∧ (∀ (now now2 : Rat) (tr : Tracker) (line : String),
        (parse_download_line now2 (parse_download_line now tr line) line).completed_layers =
          (parse_download_line now tr line).completed_layers)
    ∧ (∀ (now : Rat) (tr : Tracker) (line : String),
        hasSub (stripPy line.data) ("success".data) = true →
        (parse_download_line now tr line).completed_layers = tr.completed_layers) := by
  have main : ∀ (now : Rat) (tr : Tracker) (line : String),
      (parse_download_line now tr line).completed_layers =
        match layerCompletionOf (stripPy line.data) with
        | some hex => insertSet tr.completed_layers (String.mk hex)
        | none => tr.completed_layers := by
    intro now tr line
    obtain ⟨hP, hL, hD, hT, hC, hTo, hS⟩ :=
      applyLayerBlock_fields tr (stripPy line.data)
    unfold parse_download_line layerCompletionOf
    cases hm : milestoneOf (stripPy line.data) with
    | some trip =>
      obtain ⟨st, p, isSucc⟩ := trip
      cases isSucc <;> simp [hm, hL]
    | none =>
      by_cases hg : (hasSub (stripPy line.data) ("pulling".data) &&
          hasSub (stripPy line.data) ("%".data)) = true
      · simp only [hm, hg, if_true]
        rw [applyPercentBranch_layers, percentStep_layers, hL]
        cases layerIdOf (stripPy line.data) <;> cases searchPercent (stripPy line.data) <;>
          try rfl
        rename_i hex ds
        by_cases hc : 99 ≤ digitsToNat ds <;> simp [hc]
      · simp only [hm, hg, Bool.false_eq_true, if_false]
        exact hL
  refine ⟨main, ?_, ?_⟩
  · intro now now2 tr line
    rw [main, main]
    cases layerCompletionOf (stripPy line.data) with
    | none => rfl
    | some hex => exact insertSet_idem _ _
  · intro now tr line h
    rw [main, layerCompletionOf_of_success _ h]

/-- Witness for C5's success conjunct at a concrete input. -/
theorem claim_C5_layer_completion_witness :
    (parse_download_line 1 initialProgress "success").completed_layers =
      initialProgress.completed_layers :=
  claim_C5_layer_completion.2.2 1 initialProgress "success" (by decide)

/-- C8: the claim that unparseable lines yield a default informational
update carrying the raw trimmed text as the message fails on the code:
`parse_download_line` simply returns without recording anything for a
line matching no rule — the tracker is left entirely unchanged and the
trimmed text appears in no field. -/
theorem claim_C8_counterexample :
    parse_download_line 0 initialProgress "  hello there  " = initialProgress ∧
    (parse_download_line 0 initialProgress "  hello there  ").status ≠ "hello there" := by
  refine ⟨by decide, by decide⟩

/-- C8 (amended): the parser is a total function (it never throws: the
only fallible branch of the source is wrapped in a try/except), and a
line matching no rule — no layer id, no milestone phrase, not a
percent-bearing "pulling" line — produces no update at all: the tracker
is returned unchanged, with no message recorded. -/
theorem claim_C8_amended_no_rule (now : Rat) (tr : Tracker) (line : String)
    (hl : layerIdOf (stripPy line.data) = none)
    (hm : milestoneOf (stripPy line.data) = none)
    (hg : (hasSub (stripPy line.data) ("pulling".data) &&
        hasSub (stripPy line.data) ("%".data)) = false) :
    parse_download_line now tr line = tr := by
  unfold parse_download_line applyLayerBlock
  simp [hl, hm, hg]

/-- Witness for the amended C8 at a concrete unparseable line. -/
theorem claim_C8_amended_no_rule_witness :
    parse_download_line 2 initialProgress "unexpected daemon output" = initialProgress :=
  claim_C8_amended_no_rule 2 initialProgress "unexpected daemon output"
    (by decide) (by decide) (by decide)

theorem prefixOf_iff (p l : List Char) : prefixOf p l = true ↔ ∃ t, l = p ++ t := by
  induction p generalizing l with
  | nil => simp [prefixOf]
  | cons a as ih =>
    cases l with
    | nil => simp [prefixOf]
    | cons b bs =>
      simp only [prefixOf, Bool.and_eq_true, decide_eq_true_eq, ih, List.cons_append,
        List.cons.injEq]
      constructor
      · rintro ⟨rfl, t, rfl⟩
        exact ⟨t, rfl, rfl⟩
      · rintro ⟨t, rfl, rfl⟩
        exact ⟨rfl, t, rfl⟩

/-- C6: the claim that a second start-download call less than 5 seconds
after the previous attempt is rejected as rate-limited with
`retry_after_seconds = ceil(5 - elapsed)` fails on the code: the handler
computes `int(5 - elapsed) + 1`, which is `floor(5 - elapsed) + 1` and
exceeds the ceiling at whole-second elapses.  Concretely, a first call at
t=100 followed by a second call for a different model at t=104 yields
`retry_after_seconds = 2`, while `ceil(5 - 4) = 1`. -/
theorem claim_C6_counterexample :
    (download_model false
        (download_model false initialProgress "modelA" true true 100).2
        "modelB" false true 104).1 = .rateLimited 2 ∧
    Rat.ceil ((5 : Rat) - (104 - 100)) = 1 ∧
    (download_model false
        (download_model false initialProgress "modelA" true true 100).2
        "modelB" false true 104).1 ≠
      .rateLimited (Rat.ceil ((5 : Rat) - (104 - 100))) := by
  have h1 : (download_model false initialProgress "modelA" true true 100).2 =
      { initialProgress with downloading := false, status := "Available", progress := 100,
                             completion_time := 100, download_attempt := 1,
                             last_download_attempt_time := 100 } := by
    norm_num [download_model, initialProgress]
  have h2 : (download_model false
      (download_model false initialProgress "modelA" true true 100).2
      "modelB" false true 104).1 = .rateLimited 2 := by
    rw [h1]
    norm_num [download_model, initialProgress, Rat.floor]
  have h3 : Rat.ceil ((5 : Rat) - (104 - 100)) = 1 := by norm_num [Rat.ceil]
  refine ⟨h2, h3, ?_⟩
  rw [h2, h3]
  simp

/-- C6 (amended): a start-download call issued while no download is in
flight and less than 5 seconds after the previous attempt's timestamp is
rejected synchronously as rate_limited, for any requested model, with
`retry_after_seconds = floor(5 - elapsed) + 1` (the source computes
`int(5 - elapsed) + 1`); this equals `ceil(5 - elapsed)` except at
whole-second elapses, where it is one more. -/
theorem claim_C6_rate_limited (tr : Tracker) (modelId : String)
    (modelAvailable ollamaRunning : Bool) (now : Rat)
    (hdl : tr.downloading = false)
    (hel : now - tr.last_download_attempt_time < 5) :
    download_model false tr modelId modelAvailable ollamaRunning now =
      (.rateLimited (Rat.floor (5 - (now - tr.last_download_attempt_time)) + 1), tr) := by
  simp [download_model, hdl, hel]

/-- Witness for the amended C6 at concrete times. -/
theorem claim_C6_rate_limited_witness :
    download_model false { initialProgress with last_download_attempt_time := 100 }
        "modelB" false true 104 =
      (.rateLimited (Rat.floor (5 - ((104 : Rat) -
          ({ initialProgress with last_download_attempt_time := 100 } :
            Tracker).last_download_attempt_time)) + 1),
       { initialProgress with last_download_attempt_time := 100 }) :=
  claim_C6_rate_limited { initialProgress with last_download_attempt_time := 100 }
    "modelB" false true 104 rfl (by norm_num [initialProgress])

/-- C7: the claim that every failure path of the background download task
stamps `completion_time` fails on the code: the non-zero-exit, timeout
and exception handlers (lines 1672-1695) set `downloading=false`,
`progress=0` and a descriptive status but leave `completion_time`
untouched.  Concretely, a tracker with `completion_time = 7` finalized
with exit code 1 at t=50 still has `completion_time = 7`. -/
theorem claim_C7_counterexample :
    (finalizeDownload { initialProgress with downloading := true, completion_time := 7 }
        (.exited 1) 50).completion_time = 7 ∧
    ((7 : Rat) = 50 → False) ∧
    (finalizeDownload { initialProgress with downloading := true, completion_time := 7 }
        (.exited 1) 50).progress = 0 ∧
    (finalizeDownload { initialProgress with downloading := true, completion_time := 7 }
        (.exited 1) 50).downloading = false := by
  refine ⟨by norm_num [finalizeDownload], by norm_num, by norm_num [finalizeDownload],
    by norm_num [finalizeDownload]⟩

/-- C7 (amended): every failure path of the background download task —
non-zero process exit, the 5-minute hard timeout (process killed), or an
exception raised inside the task — ends in a state transition setting
`downloading` to false, `progress` to 0 and a descriptive status message,
but it does not stamp `completion_time`, which keeps its previous value. -/
theorem claim_C7_failure_paths (tr : Tracker) (now : Rat) (code : Int) (msg : String) :
    (code ≠ 0 →
      finalizeDownload tr (.exited code) now =
        { tr with downloading := false,
                  status := "Download failed with exit code " ++ toString code,
                  progress := 0 })
    ∧ finalizeDownload tr .timedOut now =
        { tr with downloading := false,
                  status := "Download timeout after 5 minutes of no activity",
                  progress := 0 }
    ∧ finalizeDownload tr (.raised msg) now =
        { tr with downloading := false, status := "Error: " ++ msg, progress := 0 } := by
  refine ⟨?_, rfl, rfl⟩
  intro h
  simp [finalizeDownload, h]

/-- Witness for C7 at exit code 1. -/
theorem claim_C7_failure_paths_witness :
    finalizeDownload { initialProgress with downloading := true } (.exited 1) 50 =
      { ({ initialProgress with downloading := true } : Tracker) with
          downloading := false, status := "Download failed with exit code " ++ toString (1 : Int),
          progress := 0 } :=
  (claim_C7_failure_paths { initialProgress with downloading := true } 50 1 "").1
    (by decide)

/-- C9: the claim that the health cache is invalidated when a download
completes fails on the code: nothing in `download_with_progress` touches
`model_status_cache`, so a status read issued after download completion
but within the TTL of the pre-completion payload is served stale.
Concretely, with a cached "downloading" payload from t=0 and a download
completing at t=1, a read at t=2 returns "downloading" while a fresh
computation would return "ok". -/
theorem claim_C9_counterexample :
    (health_check { timestamp := 0, response := some "downloading", cache_ttl := 3 }
        (finalizeDownload { initialProgress with downloading := true } (.exited 0) 1)
        true true 2) =
      ("downloading",
       finalizeDownload { initialProgress with downloading := true } (.exited 0) 1,
       { timestamp := 0, response := some "downloading", cache_ttl := 3 }) ∧
    (health_check_fresh { timestamp := 0, response := some "downloading", cache_ttl := 3 }
        (finalizeDownload { initialProgress with downloading := true } (.exited 0) 1)
        true true 2).1 = "ok" := by
  constructor
  · norm_num [health_check]
  · norm_num [health_check_fresh, finalizeDownload, reconcile, computeStatus, healTracker,
      initialProgress]

/-- C9 (amended): the health endpoint serves the cached payload exactly
when a payload exists and its age is below the 3-second TTL; the cache is
invalidated only by TTL expiry — download completion does not invalidate
it, so a read within the TTL after a completed download returns the stale
pre-completion payload. -/
theorem claim_C9_cache_ttl (cache : StatusCache) (tr : Tracker)
    (d m : Bool) (now nowRead : Rat) (p : String) :
    (cache.response = some p → now - cache.timestamp < cache.cache_ttl →
      health_check cache tr d m now = (p, tr, cache))
    ∧ (cache.response = some p → ¬(now - cache.timestamp < cache.cache_ttl) →
      health_check cache tr d m now = health_check_fresh cache tr d m now)
    ∧ (cache.response = none →
      health_check cache tr d m now = health_check_fresh cache tr d m now)
    ∧ (cache.response = some p → nowRead - cache.timestamp < cache.cache_ttl →
      (health_check cache (finalizeDownload tr (.exited 0) now) d m nowRead).1 = p) := by
  refine ⟨?_, ?_, ?_, ?_⟩
  · intro hp hage
    simp [health_check, hp, hage]
  · intro hp hage
    simp [health_check, hp, hage]
  · intro hp
    simp [health_check, hp]
  · intro hp hage
    simp [health_check, hp, hage]

/-- Witness for the amended C9 at a concrete cache and time. -/
theorem claim_C9_cache_ttl_witness :
    health_check { timestamp := 0, response := some "ok", cache_ttl := 3 }
        initialProgress true true 1 =
      ("ok", initialProgress,
       { timestamp := 0, response := some "ok", cache_ttl := 3 }) ∧
    (health_check { timestamp := 0, response := some "ok", cache_ttl := 3 }
        (finalizeDownload initialProgress (.exited 0) 1) true true 2).1 = "ok" := by
  have h := claim_C9_cache_ttl { timestamp := 0, response := some "ok", cache_ttl := 3 }
    initialProgress true true 1 2 "ok"
  exact ⟨h.1 rfl (by norm_num), h.2.2.2 rfl (by norm_num)⟩

/-- C10: `is_model_available` returns true not only on an exact name
match, but whenever any listed model's name starts with the requested
model's base name (the text before the first ':') followed by ':';
requesting "codellama:13b-instruct" reports available when only
"codellama:7b" is present. -/
theorem claim_C10_base_name_match :
    (∀ (avail : List String) (model_id : String),
      is_model_available avail model_id = true ↔
        (model_id ∈ avail ∨
          ∃ m ∈ avail, ∃ t : List Char, m.data = (modelBase model_id).data ++ ':' :: t))
    ∧ is_model_available ("codellama:7b" :: []) "codellama:13b-instruct" = true
    ∧ ("codellama:13b-instruct" ∈ ("codellama:7b" :: []) → False) := by
  refine ⟨?_, by decide, by decide⟩
  intro avail model_id
  unfold is_model_available
  simp only [Bool.or_eq_true, List.elem_iff, List.any_eq_true,
    prefixOf_iff, List.append_assoc, List.singleton_append]

end LLMApp
